import Mathlib

/-!
Shallow embedding of the CegidAssistantBackend session/token core:
`AuthService` (sign-in, refresh, sign-out, sign-out-all), the refresh-token
store semantics (bcrypt-hashed tokens, TTL timestamps, revocation flag),
the `GatewayService` connection registry (dual `Map` of userId/socketId),
and the `AppGateway.handleConnection` handshake protocol.

Time is modelled as a natural number of milliseconds.  A signed JWT is
modelled symbolically: the signing secret is carried inside the token and
verification compares secrets, which captures exactly the success/failure
behaviour of HMAC verification.  A bcrypt hash is modelled as the salted
pair of the salt and the hashed plaintext; `bcrypt.compare` succeeds
exactly when the plaintexts coincide.
-/

namespace Cegid

/-- A bcrypt digest of a value of type `α`, salted with `salt`.  Distinct
salts give distinct digests of the same plaintext. -/
structure BHash (α : Type) where
  salt : Nat
  plain : α
deriving DecidableEq, Repr

/-- `bcrypt.compare(candidate, digest)`: succeeds iff the digest was
produced from the candidate plaintext. -/
def bcryptCompare {α : Type} [BEq α] (candidate : α) (digest : BHash α) : Bool :=
  digest.plain == candidate

/-- A signed JWT as produced by `jwtService.sign`: the claims
(`sub`, `email`, optional `username`, `iat`, `exp`) plus the secret the
signature was produced with. -/
structure Jwt where
  sub : String
  email : String
  username : Option String
  iat : Nat
  exp : Nat
  secret : String
deriving DecidableEq, Repr

instance : BEq Jwt := instBEqOfDecidableEq

/-- Failure modes of `jwtService.verify`. -/
inductive VerifyErr where
  | invalidSignature
  | expired
deriving DecidableEq, Repr

/-- `jwtService.verify(token, { secret })` at clock time `now`:
signature is checked first, then the embedded expiry (a token is expired
once `now ≥ exp`). -/
def jwtVerify (t : Jwt) (secret : String) (now : Nat) : Except VerifyErr Jwt :=
  if t.secret ≠ secret then .error .invalidSignature
  else if t.exp ≤ now then .error .expired
  else .ok t

/-! ### Duration strings

`expiresIn` configuration values are strings such as "15m" or "7d".
`msParse` models the `ms` library used by `jsonwebtoken` (leading digits
followed by a unit); `parseIntLeading` models JavaScript `parseInt`
(leading digits, NaN when there are none); `jsReplaceFirst` models
`String.prototype.replace` with a single-character pattern, which replaces
only the first occurrence. -/

/-- Split a character list into its leading digits and the rest. -/
def splitDigits : List Char → List Char × List Char
  | [] => ([], [])
  | c :: rest =>
      if c.isDigit then
        let p := splitDigits rest
        (c :: p.1, p.2)
      else ([], c :: rest)

/-- Interpret a list of decimal digit characters as a number. -/
def digitsToNat (ds : List Char) : Nat :=
  ds.foldl (fun acc c => acc * 10 + (c.toNat - 48)) 0

/-- Milliseconds denoted by a unit suffix of a duration string
(empty suffix means the number is already in milliseconds). -/
def msUnitFactor : List Char → Option Nat
  | [] => some 1
  | ['s'] => some 1000
  | ['m'] => some 60000
  | ['h'] => some 3600000
  | ['d'] => some 86400000
  | _ => none

/-- The `ms` library: "15m" ↦ 900000, "7d" ↦ 604800000, etc. -/
def msParse (s : List Char) : Option Nat :=
  let p := splitDigits s
  if p.1 = [] then none
  else match msUnitFactor p.2 with
    | some f => some (digitsToNat p.1 * f)
    | none => none

/-- JavaScript `parseInt`: value of the leading digits, `none` for NaN. -/
def parseIntLeading (s : List Char) : Option Nat :=
  let p := splitDigits s
  if p.1 = [] then none else some (digitsToNat p.1)

/-- JavaScript `str.replace(c, '')`: removes the first occurrence only. -/
def jsReplaceFirst (c : Char) : List Char → List Char
  | [] => []
  | x :: rest => if x = c then rest else x :: jsReplaceFirst c rest

/-- Milliseconds in one day, the unit `expiresAt.setDate(getDate()+days)`
advances by. -/
def dayMs : Nat := 86400000

/-! ### Data model -/

/-- A user document (`users/schemas/user.schema.ts`): the password is
stored bcrypt-hashed; `remove` soft-deletes by clearing `isActive`. -/
structure User where
  id : String
  email : String
  username : String
  password : BHash String
  isActive : Bool
deriving DecidableEq, Repr

/-- A `RefreshToken` document (`auth/schemas/refresh-token.schema.ts`):
the token field stores only the bcrypt hash of the signed refresh JWT. -/
structure RefreshRecord where
  token : BHash Jwt
  userId : String
  expiresAt : Nat
  isRevoked : Bool
  createdAt : Nat
deriving DecidableEq, Repr

/-- The durable state the auth service operates on: the user collection
and the refresh-token collection, each modelled as a list of documents in
insertion order. -/
structure AuthState where
  users : List User
  records : List RefreshRecord
deriving DecidableEq, Repr

/-- Configuration: the two JWT secrets and the optional expiration
strings (`JWT_ACCESS_EXPIRATION`, `JWT_REFRESH_EXPIRATION`). -/
structure Config where
  jwtSecret : String
  refreshSecret : String
  accessExpiration : Option String
  refreshExpiration : Option String
deriving DecidableEq, Repr

/-- The error taxonomy surfaced by the auth service.  `internalErr`
models a raw (uncaught) collaborator error escaping `signIn`. -/
inductive AuthErr where
  | invalidCredentials
  | invalidToken
  | notFound
  | internalErr
deriving DecidableEq, Repr

/-! ### UsersService -/

/-- `UsersService.findOne`: throws `NotFoundException` when no user has
the id or the user is soft-deleted (`isActive == false`). -/
def findOne (users : List User) (id : String) : Except AuthErr User :=
  match users.find? (fun u => u.id == id) with
  | none => .error .notFound
  | some u => if u.isActive then .ok u else .error .notFound

/-- `UsersService.findByEmail`: `findOne({ email, isActive: true })`. -/
def findByEmail (users : List User) (email : String) : Option User :=
  users.find? (fun u => u.email == email && u.isActive)

/-! ### Token generation -/

/-- `AuthService.generateAccessToken`: payload `sub`/`email`/`username`,
signed with `JWT_SECRET`, `expiresIn` defaulting to "15m".  `none` models
`jwtService.sign` throwing on an unparseable duration. -/
def generateAccessToken (cfg : Config) (u : User) (now : Nat) : Option Jwt :=
  let expiresIn := cfg.accessExpiration.getD "15m"
  match msParse expiresIn.toList with
  | some m =>
      some { sub := u.id, email := u.email, username := some u.username,
             iat := now, exp := now + m, secret := cfg.jwtSecret }
  | none => none

/-- `AuthService.generateRefreshToken`: payload `sub`/`email`, signed with
`JWT_REFRESH_SECRET`, `expiresIn` defaulting to "7d"; the stored record's
`expiresAt` is computed as `parseInt(expiresIn.replace('d', ''))` days
from now, and the document holds the bcrypt hash of the signed token
(hashed by the schema's pre-save hook with a fresh `salt`). -/
def generateRefreshToken (cfg : Config) (u : User) (salt : Nat) (now : Nat) :
    Option (Jwt × RefreshRecord) :=
  let expiresIn := cfg.refreshExpiration.getD "7d"
  match msParse expiresIn.toList,
        parseIntLeading (jsReplaceFirst 'd' expiresIn.toList) with
  | some m, some days =>
      let tok : Jwt :=
        { sub := u.id, email := u.email, username := none,
          iat := now, exp := now + m, secret := cfg.refreshSecret }
      some (tok,
        { token := { salt := salt, plain := tok }, userId := u.id,
          expiresAt := now + days * dayMs, isRevoked := false,
          createdAt := now })
  | _, _ => none

/-! ### AuthService operations

Each operation returns its result together with the post-state of the
durable collections. -/

/-- The lookup realized inside `AuthService.refresh` lines 73–95: fetch
all records for the subject, bcrypt-compare the presented token against
each stored hash stopping at the first match, then gate that record on
the revocation flag and the expiry timestamp (`new Date() > expiresAt`
being the expiry test, so a record is rejected only strictly after
`expiresAt`). -/
def findValidByPlaintext (records : List RefreshRecord) (sub : String)
    (tok : Jwt) (now : Nat) : Option RefreshRecord :=
  let stored := records.filter (fun r => r.userId == sub)
  match stored.find? (fun r => bcryptCompare tok r.token) with
  | none => none
  | some v => if v.isRevoked || decide (v.expiresAt < now) then none else some v

/-- `AuthService.refresh`: verify the refresh JWT, look the record up via
the hash-compare scan, load the user, and issue a new access token.  The
surrounding `try/catch` collapses every failure (bad signature, JWT
expiry, no matching record, revoked or expired record, missing or
inactive user, token-generation error) into the single
`UnauthorizedException('Invalid refresh token')` outcome.  No write is
performed on any path. -/
def refresh (cfg : Config) (st : AuthState) (tok : Jwt) (now : Nat) :
    Except AuthErr Jwt × AuthState :=
  match jwtVerify tok cfg.refreshSecret now with
  | .error _ => (.error .invalidToken, st)
  | .ok payload =>
    match findValidByPlaintext st.records payload.sub tok now with
    | none => (.error .invalidToken, st)
    | some _ =>
      match findOne st.users payload.sub with
      | .error _ => (.error .invalidToken, st)
      | .ok user =>
        match generateAccessToken cfg user now with
        | none => (.error .invalidToken, st)
        | some access => (.ok access, st)

/-- `AuthService.signIn`: find the active user by email, bcrypt-compare
the password, issue both tokens and persist the refresh record. -/
def signIn (cfg : Config) (st : AuthState) (email pw : String)
    (salt : Nat) (now : Nat) :
    Except AuthErr (Jwt × Jwt × User) × AuthState :=
  match findByEmail st.users email with
  | none => (.error .invalidCredentials, st)
  | some user =>
    if bcryptCompare pw user.password then
      match generateAccessToken cfg user now,
            generateRefreshToken cfg user salt now with
      | some access, some rt =>
          (.ok (access, rt.1, user),
           { st with records := st.records ++ [rt.2] })
      | _, _ => (.error .internalErr, st)
    else (.error .invalidCredentials, st)

/-- The revocation loop of `AuthService.signOut`: walk the subject's
records in order, set `isRevoked` on the first bcrypt match, and stop. -/
def revokeFirstMatch (tok : Jwt) : List RefreshRecord → List RefreshRecord
  | [] => []
  | r :: rest =>
      if r.userId == tok.sub && bcryptCompare tok r.token then
        { r with isRevoked := true } :: rest
      else r :: revokeFirstMatch tok rest

/-- `AuthService.signOut`: verify the refresh JWT (failing with
`InvalidToken` only when that check fails), revoke the first matching
record if any, and return the success acknowledgment either way. -/
def signOut (cfg : Config) (st : AuthState) (tok : Jwt) (now : Nat) :
    Except AuthErr String × AuthState :=
  match jwtVerify tok cfg.refreshSecret now with
  | .error _ => (.error .invalidToken, st)
  | .ok payload =>
      (.ok "Signed out successfully",
       { st with records := revokeFirstMatch payload st.records })

/-- `AuthService.signOutAll`: one bulk update setting `isRevoked` on
every record matching `userId == userId && isRevoked == false`; always
acknowledges success. -/
def signOutAll (st : AuthState) (userId : String) : AuthState :=
  { st with records := st.records.map (fun r =>
      if r.userId == userId && !r.isRevoked then
        { r with isRevoked := true }
      else r) }

/-! ### GatewayService: the connection registry

JavaScript `Map` is modelled as an association list in insertion order:
`set` updates in place when the key exists, else appends; `delete`
removes the key. -/

/-- `Map.get`. -/
def mapGet (m : List (String × String)) (k : String) : Option String :=
  (m.find? (fun p => p.1 == k)).map (fun p => p.2)

/-- `Map.set`: overwrite in place, or append a new entry. -/
def mapSet (m : List (String × String)) (k v : String) :
    List (String × String) :=
  if (m.find? (fun p => p.1 == k)).isSome then
    m.map (fun p => if p.1 == k then (k, v) else p)
  else m ++ [(k, v)]

/-- `Map.delete`. -/
def mapDelete (m : List (String × String)) (k : String) :
    List (String × String) :=
  m.filter (fun p => ¬ p.1 = k)

/-- The `GatewayService` state: `userConnections : userId → socketId` and
the reverse `socketToUser : socketId → userId`. -/
structure Registry where
  userConnections : List (String × String)
  socketToUser : List (String × String)
deriving DecidableEq, Repr

/-- The empty registry. -/
def Registry.empty : Registry := { userConnections := [], socketToUser := [] }

/-- `GatewayService.addConnection`: set both directions unconditionally. -/
def addConnection (r : Registry) (userId socketId : String) : Registry :=
  { userConnections := mapSet r.userConnections userId socketId,
    socketToUser := mapSet r.socketToUser socketId userId }

/-- `GatewayService.removeConnection`: look the owner up in the reverse
map; when found, delete the owner's forward entry and the reverse entry
(no check that the forward entry still points at this socket). -/
def removeConnection (r : Registry) (socketId : String) : Registry :=
  match mapGet r.socketToUser socketId with
  | some userId =>
      { userConnections := mapDelete r.userConnections userId,
        socketToUser := mapDelete r.socketToUser socketId }
  | none => r

/-- `GatewayService.getSocketId`. -/
def getSocketId (r : Registry) (userId : String) : Option String :=
  mapGet r.userConnections userId

/-- `GatewayService.getUserId`. -/
def getUserId (r : Registry) (socketId : String) : Option String :=
  mapGet r.socketToUser socketId

/-- `GatewayService.isUserConnected`. -/
def isUserConnected (r : Registry) (userId : String) : Bool :=
  (mapGet r.userConnections userId).isSome

/-- `GatewayService.getConnectedUsers`. -/
def getConnectedUsers (r : Registry) : List String :=
  r.userConnections.map (fun p => p.1)

/-- `GatewayService.getConnectionCount`. -/
def getConnectionCount (r : Registry) : Nat :=
  r.userConnections.length

/-! ### AppGateway.handleConnection -/

/-- The credentials a socket handshake may carry: `handshake.auth.token`
and the bearer token of the authorization header. -/
structure Handshake where
  authToken : Option Jwt
  headerToken : Option Jwt
deriving DecidableEq, Repr

/-- Events the gateway emits to the connecting client. -/
inductive GwEvent where
  | connectedEvent (userId socketId : String)
  | errorEvent
deriving DecidableEq, Repr

/-- Outcome of `handleConnection`: the registry afterwards, the events
emitted to this client in order, whether the socket was disconnected, and
the identity attached to `client.data`. -/
structure ConnOutcome where
  registry : Registry
  events : List GwEvent
  disconnected : Bool
  dataUserId : Option String
deriving DecidableEq, Repr

/-- `AppGateway.handleConnection`: take `auth.token` falling back to the
authorization header; with no token, log and disconnect (emitting
nothing); verify the JWT against `JWT_SECRET`; on failure emit a single
error event and disconnect; on success register the connection, attach
the identity, and emit the connection-confirmed event. -/
def handleConnection (cfg : Config) (reg : Registry) (hs : Handshake)
    (socketId : String) (now : Nat) : ConnOutcome :=
  match hs.authToken <|> hs.headerToken with
  | none =>
      { registry := reg, events := [], disconnected := true,
        dataUserId := none }
  | some tok =>
    match jwtVerify tok cfg.jwtSecret now with
    | .error _ =>
        { registry := reg, events := [.errorEvent], disconnected := true,
          dataUserId := none }
    | .ok payload =>
        { registry := addConnection reg payload.sub socketId,
          events := [.connectedEvent payload.sub socketId],
          disconnected := false,
          dataUserId := some payload.sub }

/-- `AppGateway.handleDisconnect`: unconditionally remove the socket. -/
def handleDisconnect (reg : Registry) (socketId : String) : Registry :=
  removeConnection reg socketId

/-- `AppGateway.sendMessageToUser`: resolve via the registry; `false`
(no event delivered) when the user is offline. -/
def sendMessageToUser (reg : Registry) (userId : String) : Bool :=
  (getSocketId reg userId).isSome

/-! ### Concrete fixtures used by witnesses and counterexamples -/

/-- A configuration with the default expirations and two distinct secrets. -/
def cfgA : Config :=
  { jwtSecret := "acc-secret", refreshSecret := "ref-secret",
    accessExpiration := none, refreshExpiration := none }

/-- An active user. -/
def userA : User :=
  { id := "u1", email := "a@x.com", username := "alice",
    password := { salt := 1, plain := "pw1" }, isActive := true }

/-- A refresh JWT for `userA` issued at time 0 under the default 7-day
expiration. -/
def tokR : Jwt :=
  { sub := "u1", email := "a@x.com", username := none,
    iat := 0, exp := 604800000, secret := "ref-secret" }

/-- The stored record for `tokR`. -/
def recA : RefreshRecord :=
  { token := { salt := 5, plain := tokR }, userId := "u1",
    expiresAt := 604800000, isRevoked := false, createdAt := 0 }

/-- A state holding `userA` and the record for `tokR`. -/
def stA : AuthState := { users := [userA], records := [recA] }

/-- The access token `refresh cfgA stA tokR 10` issues. -/
def accA10 : Jwt :=
  { sub := "u1", email := "a@x.com", username := some "alice",
    iat := 10, exp := 900010, secret := "acc-secret" }

/-- A record for `tokR` whose `expiresAt` is exactly 1000. -/
def recBoundary : RefreshRecord :=
  { token := { salt := 5, plain := tokR }, userId := "u1",
    expiresAt := 1000, isRevoked := false, createdAt := 0 }

/-- State with the boundary record. -/
def stBoundary : AuthState := { users := [userA], records := [recBoundary] }

/-- A revoked record whose hash matches `tokR` (salt 1). -/
def recM1 : RefreshRecord :=
  { token := { salt := 1, plain := tokR }, userId := "u1",
    expiresAt := 604800000, isRevoked := true, createdAt := 0 }

/-- A valid record whose hash also matches `tokR` (salt 2), stored after
`recM1`. -/
def recM2 : RefreshRecord :=
  { token := { salt := 2, plain := tokR }, userId := "u1",
    expiresAt := 604800000, isRevoked := false, createdAt := 0 }

/-- State where the first match for `tokR` is revoked but a later match
is valid. -/
def stM : AuthState := { users := [userA], records := [recM1, recM2] }

/-- The registry after `addConnection("p","c1"); addConnection("p","c2")`. -/
def regC1 : Registry :=
  addConnection (addConnection Registry.empty "p" "c1") "p" "c2"

/-- A handshake carrying no credential at all. -/
def hsNone : Handshake := { authToken := none, headerToken := none }

/-- A token signed with a secret that is neither configured secret. -/
def tokForged : Jwt :=
  { sub := "u1", email := "a@x.com", username := some "alice",
    iat := 0, exp := 900000, secret := "other-secret" }

/-- A handshake carrying the forged token in `auth.token`. -/
def hsForged : Handshake := { authToken := some tokForged, headerToken := none }

/-- `cfgA` with a refresh expiration denominated in hours. -/
def cfgH : Config := { cfgA with refreshExpiration := some "12h" }

/-- The refresh JWT `generateRefreshToken cfgH userA 7 0` signs:
its embedded expiry is 12 hours from issuance. -/
def tokH : Jwt :=
  { sub := "u1", email := "a@x.com", username := none,
    iat := 0, exp := 43200000, secret := "ref-secret" }

/-- The record `generateRefreshToken cfgH userA 7 0` stores: its
`expiresAt` is 12 *days* from issuance. -/
def recH : RefreshRecord :=
  { token := { salt := 7, plain := tokH }, userId := "u1",
    expiresAt := 1036800000, isRevoked := false, createdAt := 0 }

/-- `userA` soft-deleted. -/
def userAInactive : User := { userA with isActive := false }

/-- `stA` with its only user soft-deleted while `recA` is still stored
and valid. -/
def stInactive : AuthState := { users := [userAInactive], records := [recA] }

/-! ### Helper lemmas -/

/-- `jwtVerify` succeeds exactly on the token itself, when the secret
matches and the expiry is strictly in the future. -/
theorem jwtVerify_ok_iff (t : Jwt) (s : String) (now : Nat) (u : Jwt) :
    jwtVerify t s now = .ok u ↔ u = t ∧ t.secret = s ∧ now < t.exp := by
  constructor
  · intro h
    unfold jwtVerify at h
    by_cases h1 : t.secret ≠ s
    · rw [if_pos h1] at h
      exact absurd h (by simp)
    · rw [if_neg h1] at h
      by_cases h2 : t.exp ≤ now
      · rw [if_pos h2] at h
        exact absurd h (by simp)
      · rw [if_neg h2] at h
        injection h with h3
        exact ⟨h3.symm, not_not.mp h1, by omega⟩
  · rintro ⟨rfl, hs, hlt⟩
    unfold jwtVerify
    rw [if_neg (not_not.mpr hs), if_neg (by omega)]

/-- `refresh` performs no write: the post-state is the pre-state on every
path. -/
theorem refresh_preserves_state (cfg : Config) (st : AuthState) (tok : Jwt)
    (now : Nat) : (refresh cfg st tok now).2 = st := by
  unfold refresh
  split
  · rfl
  · split
    · rfl
    · split
      · rfl
      · split <;> rfl

/-- Characterization of the lookup inside `refresh`: a record is
returned iff it is the first bcrypt match among the subject's records and
passes the revocation/expiry gate. -/
theorem fvp_some_iff (records : List RefreshRecord) (sub : String)
    (tok : Jwt) (now : Nat) (r : RefreshRecord) :
    findValidByPlaintext records sub tok now = some r ↔
      ((records.filter (fun x => x.userId == sub)).find?
          (fun x => bcryptCompare tok x.token) = some r ∧
        r.isRevoked = false ∧ now ≤ r.expiresAt) := by
  simp only [findValidByPlaintext]
  split
  · rename_i hm
    rw [hm]
    simp
  · rename_i w hm
    rw [hm]
    by_cases hg : (w.isRevoked || decide (w.expiresAt < now)) = true
    · rw [if_pos hg]
      constructor
      · intro h
        exact absurd h (by simp)
      · rintro ⟨hw, hrev, hle⟩
        injection hw with hw
        subst hw
        rw [hrev] at hg
        simp only [Bool.false_or, decide_eq_true_eq] at hg
        omega
    · rw [if_neg hg]
      have hg' : w.isRevoked = false ∧ now ≤ w.expiresAt := by
        simp only [Bool.or_eq_true, decide_eq_true_eq, not_or,
          Bool.not_eq_true] at hg
        exact ⟨hg.1, by omega⟩
      constructor
      · intro h
        injection h with h
        subst h
        exact ⟨rfl, hg'.1, hg'.2⟩
      · rintro ⟨hw, _, _⟩
        injection hw with hw
        rw [hw]

/-- A revoked record is never the result of the lookup. -/
theorem fvp_never_revoked (records : List RefreshRecord) (sub : String)
    (tok : Jwt) (now : Nat) (r : RefreshRecord) (hrev : r.isRevoked = true) :
    findValidByPlaintext records sub tok now ≠ some r := by
  intro h
  have := ((fvp_some_iff records sub tok now r).mp h).2.1
  rw [this] at hrev
  exact Bool.false_ne_true hrev

/-- After `signOutAll st P`, every record of `P` is revoked. -/
theorem signOutAll_revokes (st : AuthState) (P : String)
    (r : RefreshRecord) (hmem : r ∈ (signOutAll st P).records)
    (hid : r.userId = P) : r.isRevoked = true := by
  unfold signOutAll at hmem
  simp only [List.mem_map] at hmem
  obtain ⟨r0, _, hr0⟩ := hmem
  by_cases hc : (r0.userId == P && !r0.isRevoked) = true
  · rw [if_pos hc] at hr0
    cases hr0
    rfl
  · rw [if_neg hc] at hr0
    cases hr0
    simp only [Bool.and_eq_true, beq_iff_eq, Bool.not_eq_true', not_and] at hc
    simpa using hc hid

/-- `revokeFirstMatch` acts positionally: each record is either kept or
has `isRevoked` set. -/
theorem revokeFirstMatch_get (tok : Jwt) (l : List RefreshRecord)
    (i : Nat) (r' : RefreshRecord)
    (h : (revokeFirstMatch tok l)[i]? = some r') :
    ∃ r, l[i]? = some r ∧ (r' = r ∨ r' = { r with isRevoked := true }) := by
  induction l generalizing i with
  | nil => simp [revokeFirstMatch] at h
  | cons a rest ih =>
      unfold revokeFirstMatch at h
      by_cases hc : (a.userId == tok.sub && bcryptCompare tok a.token) = true
      · rw [if_pos hc] at h
        cases i with
        | zero =>
            refine ⟨a, by simp, Or.inr ?_⟩
            simpa using h.symm
        | succ n =>
            refine ⟨r', by simpa using h, Or.inl rfl⟩
      · rw [if_neg hc] at h
        cases i with
        | zero => exact ⟨a, by simp, Or.inl (by simpa using h.symm)⟩
        | succ n =>
            simp only [List.getElem?_cons_succ] at h ⊢
            exact ih n h

/-! ### Claims -/

/-- C1: the spec requires that after `register(P, C1); register(P, C2)`
a subsequent `unregister(C1)` be a no-op leaving `resolve(P) == C2` and
`P` in `listConnected()`.  Evaluating the registry at that input shows
the code violates this: `addConnection` leaves the stale reverse entry
`C1 ↦ P` in place, so `removeConnection(C1)` finds `P` and deletes the
*newer* forward entry `P ↦ C2`; afterwards `resolve(P)` is `none`, `P` is
gone from `listConnected()`, and the reverse map retains a dangling
`C2 ↦ P` entry inconsistent with the emptied forward map. -/
theorem c1_stale_unregister_erases_newer_mapping :
    getSocketId regC1 "p" = some "c2" ∧
    getSocketId (removeConnection regC1 "c1") "p" = none ∧
    getConnectedUsers (removeConnection regC1 "c1") = [] ∧
    getUserId (removeConnection regC1 "c1") "c2" = some "p" := by
  refine ⟨rfl, rfl, rfl, rfl⟩

/-- C2 counterexample: a record whose `expiresAt` *equals* the current
time is accepted by `refresh` — the code tests `new Date() > expiresAt`,
so at `now == expiresAt` the un-revoked record is still treated as valid
and a fresh access token is issued, contradicting the claim that such a
record is never treated as valid. -/
theorem c2_counterexample_boundary_accepted :
    recBoundary.isRevoked = false ∧
    recBoundary.expiresAt = 1000 ∧
    (refresh cfgA stBoundary tokR 1000).1 =
      .ok { sub := "u1", email := "a@x.com", username := some "alice",
            iat := 1000, exp := 901000, secret := "acc-secret" } := by
  refine ⟨rfl, rfl, rfl⟩

/-- C2 (amended): a `RefreshRecord` is accepted by `refresh` only when
`isRevoked == false` and `now ≤ expiresAt` — the expiry comparison is
strict in the other direction, so a record is rejected only strictly
after `expiresAt`; whenever `refresh` succeeds, the matched record was
un-revoked and `now` had not passed its `expiresAt`. -/
theorem c2_refresh_accepts_only_unrevoked_unexpired
    (cfg : Config) (st : AuthState) (tok : Jwt) (now : Nat)
    (a : Jwt) (st' : AuthState)
    (h : refresh cfg st tok now = (.ok a, st')) :
    ∃ r, (st.records.filter (fun x => x.userId == tok.sub)).find?
          (fun x => bcryptCompare tok x.token) = some r ∧
        r.isRevoked = false ∧ now ≤ r.expiresAt := by
  unfold refresh at h
  split at h
  · exact absurd (congrArg Prod.fst h) (by simp)
  · rename_i payload hv
    have hpt : payload = tok := ((jwtVerify_ok_iff _ _ _ _).mp hv).1
    subst hpt
    split at h
    · exact absurd (congrArg Prod.fst h) (by simp)
    · rename_i r hf
      exact ⟨r, (fvp_some_iff _ _ _ _ _).mp hf⟩

/-- C2 witness: at the boundary instance the matched record is indeed
un-revoked with `now ≤ expiresAt`. -/
theorem c2_refresh_accepts_only_unrevoked_unexpired_witness :
    ∃ r, (stBoundary.records.filter (fun x => x.userId == tokR.sub)).find?
          (fun x => bcryptCompare tokR x.token) = some r ∧
        r.isRevoked = false ∧ 1000 ≤ r.expiresAt :=
  c2_refresh_accepts_only_unrevoked_unexpired cfgA stBoundary tokR 1000
    { sub := "u1", email := "a@x.com", username := some "alice",
      iat := 1000, exp := 901000, secret := "acc-secret" }
    stBoundary rfl

/-- C3 counterexample: the lookup does *not* return the first matching
record that satisfies the validity invariant.  With two stored records
whose hashes both match the presented token — the first revoked, the
second un-revoked and un-expired — `refresh` fails with `InvalidToken`
even though a valid matching record (`recM2`) exists, because the scan
stops at the first bcrypt match and only then applies the validity
gate. -/
theorem c3_counterexample_first_match_shadows_valid :
    (refresh cfgA stM tokR 100).1 = .error .invalidToken ∧
    recM2 ∈ stM.records ∧
    recM2.userId = tokR.sub ∧
    bcryptCompare tokR recM2.token = true ∧
    recM2.isRevoked = false ∧
    (100 : Nat) ≤ recM2.expiresAt := by
  refine ⟨rfl, by simp [stM], rfl, rfl, rfl, by decide⟩

/-- C3 (amended): the lookup realized inside `refresh` hash-compares the
plaintext against the principal's records in order and stops at the
*first* match; it returns that record exactly when the record is
un-revoked and `now ≤ expiresAt`, and returns none when no stored hash
matches or that first matching record is revoked or expired — a later
also-matching valid record is never considered. -/
theorem c3_lookup_is_first_match_then_validity_gate
    (records : List RefreshRecord) (sub : String) (tok : Jwt) (now : Nat)
    (r : RefreshRecord) :
    findValidByPlaintext records sub tok now = some r ↔
      ((records.filter (fun x => x.userId == sub)).find?
          (fun x => bcryptCompare tok x.token) = some r ∧
        r.isRevoked = false ∧ now ≤ r.expiresAt) :=
  fvp_some_iff records sub tok now r

/-- C3 witness: concrete instance of the characterization — the lookup
on `stM.records` returns none for `recM2` although it matches and is
valid, because `recM1` is the first match. -/
theorem c3_lookup_is_first_match_then_validity_gate_witness :
    findValidByPlaintext stM.records "u1" tokR 100 ≠ some recM2 := by
  intro h
  have h2 := (c3_lookup_is_first_match_then_validity_gate
      stM.records "u1" tokR 100 recM2).mp h
  have h3 : (stM.records.filter (fun x => x.userId == "u1")).find?
      (fun x => bcryptCompare tokR x.token) = some recM1 := rfl
  rw [h3] at h2
  have h4 : recM1 = recM2 := by injection h2.1
  exact absurd (congrArg RefreshRecord.isRevoked h4) (by decide)

/-- Inversion of a successful `refresh` call: the state is untouched,
the token verified under the refresh secret and was unexpired, the lookup
found a record, the user was found active, and the result is the freshly
issued access token with `iat = now`. -/
theorem refresh_ok_inv (cfg : Config) (st : AuthState) (tok : Jwt)
    (now : Nat) (a : Jwt) (st' : AuthState)
    (h : refresh cfg st tok now = (.ok a, st')) :
    st' = st ∧ tok.secret = cfg.refreshSecret ∧ now < tok.exp ∧
      ∃ r u m, findValidByPlaintext st.records tok.sub tok now = some r ∧
        findOne st.users tok.sub = .ok u ∧
        msParse (cfg.accessExpiration.getD "15m").toList = some m ∧
        a = ⟨u.id, u.email, some u.username, now, now + m, cfg.jwtSecret⟩ := by
  have hframe : st' = st := by
    have h2 := refresh_preserves_state cfg st tok now
    rw [h] at h2
    exact h2
  refine ⟨hframe, ?_⟩
  unfold refresh at h
  split at h
  · exact absurd (congrArg Prod.fst h) (by simp)
  · rename_i payload hv
    obtain ⟨hpt, hsec, hex⟩ := (jwtVerify_ok_iff _ _ _ _).mp hv
    rw [hpt] at h
    refine ⟨hsec, hex, ?_⟩
    split at h
    · exact absurd (congrArg Prod.fst h) (by simp)
    · rename_i r hf
      split at h
      · exact absurd (congrArg Prod.fst h) (by simp)
      · rename_i u hu
        split at h
        · exact absurd (congrArg Prod.fst h) (by simp)
        · rename_i a0 hg
          have ha : a0 = a := by
            have h3 := congrArg Prod.fst h
            simpa using h3
          simp only [generateAccessToken] at hg
          split at hg
          · rename_i m hm
            refine ⟨r, u, m, hf, hu, hm, ?_⟩
            rw [← ha]
            injection hg with hg'
            exact hg'.symm
          · exact absurd hg (by simp)

/-- Construction of a successful `refresh` call from its ingredients. -/
theorem refresh_ok_build (cfg : Config) (st : AuthState) (tok : Jwt)
    (now : Nat) (r : RefreshRecord) (u : User) (m : Nat)
    (hsec : tok.secret = cfg.refreshSecret) (hex : now < tok.exp)
    (hf : findValidByPlaintext st.records tok.sub tok now = some r)
    (hu : findOne st.users tok.sub = .ok u)
    (hm : msParse (cfg.accessExpiration.getD "15m").toList = some m) :
    refresh cfg st tok now =
      (.ok ⟨u.id, u.email, some u.username, now, now + m, cfg.jwtSecret⟩,
        st) := by
  have hv : jwtVerify tok cfg.refreshSecret now = .ok tok :=
    (jwtVerify_ok_iff _ _ _ _).mpr ⟨rfl, hsec, hex⟩
  have hg : generateAccessToken cfg u now =
      some ⟨u.id, u.email, some u.username, now, now + m, cfg.jwtSecret⟩ := by
    simp only [generateAccessToken, hm]
  simp only [refresh, hv, hf, hu, hg]

/-- C4: a successful `refresh` leaves the state — in particular every
field of the matching `RefreshRecord` — completely unchanged (no
rotation, no re-persist), and a second `refresh` with the same
still-valid token at a later time succeeds again on the unchanged state
and returns a different access token (the embedded issued-at differs). -/
theorem c4_refresh_does_not_rotate
    (cfg : Config) (st : AuthState) (tok : Jwt) (now1 now2 : Nat)
    (a1 : Jwt) (st1 : AuthState)
    (h1 : refresh cfg st tok now1 = (.ok a1, st1))
    (hlt : now1 < now2) (hexp : now2 < tok.exp)
    (hstill : ∀ r, (st.records.filter (fun x => x.userId == tok.sub)).find?
        (fun x => bcryptCompare tok x.token) = some r → now2 ≤ r.expiresAt) :
    st1 = st ∧ ∃ a2, refresh cfg st tok now2 = (.ok a2, st) ∧ a1 ≠ a2 := by
  obtain ⟨hframe, hsec, hex1, r, u, m, hf, hu, hm, ha⟩ :=
    refresh_ok_inv cfg st tok now1 a1 st1 h1
  refine ⟨hframe,
    ⟨u.id, u.email, some u.username, now2, now2 + m, cfg.jwtSecret⟩, ?_, ?_⟩
  · refine refresh_ok_build cfg st tok now2 r u m hsec hexp ?_ hu hm
    have hf' := (fvp_some_iff _ _ _ _ _).mp hf
    exact (fvp_some_iff _ _ _ _ _).mpr ⟨hf'.1, hf'.2.1, hstill r hf'.1⟩
  · intro hc
    have h4 : a1.iat = now2 := by rw [hc]
    rw [ha] at h4
    simp only at h4
    omega

/-- Every failure of `refresh` surfaces as `InvalidToken`: the result is
either that error or a success. -/
theorem refresh_result_cases (cfg : Config) (st : AuthState) (tok : Jwt)
    (now : Nat) :
    (refresh cfg st tok now).1 = .error .invalidToken ∨
      ∃ a, (refresh cfg st tok now).1 = .ok a := by
  unfold refresh
  split
  · exact Or.inl rfl
  · split
    · exact Or.inl rfl
    · split
      · exact Or.inl rfl
      · split
        · exact Or.inl rfl
        · exact Or.inr ⟨_, rfl⟩

/-- `signOut` acknowledges success whenever the JWT verifies, regardless
of the revocation state of any stored record. -/
theorem signOut_ack (cfg : Config) (st : AuthState) (tok : Jwt) (now : Nat)
    (hsec : tok.secret = cfg.refreshSecret) (hex : now < tok.exp) :
    (signOut cfg st tok now).1 = .ok "Signed out successfully" := by
  have hv : jwtVerify tok cfg.refreshSecret now = .ok tok :=
    (jwtVerify_ok_iff _ _ _ _).mpr ⟨rfl, hsec, hex⟩
  simp only [signOut, hv]

/-- `signOutAll` leaves records of other principals in place, at their
position and bit-for-bit. -/
theorem signOutAll_other_preserved (st : AuthState) (P : String)
    (i : Nat) (r : RefreshRecord) (h : st.records[i]? = some r)
    (hne : r.userId ≠ P) : (signOutAll st P).records[i]? = some r := by
  unfold signOutAll
  simp only [List.getElem?_map, h, Option.map_some']
  simp [hne]

/-- `signIn` either leaves the record collection unchanged or appends
one new record at the end. -/
theorem signIn_records_shape (cfg : Config) (st : AuthState)
    (email pw : String) (salt now : Nat) :
    (signIn cfg st email pw salt now).2.records = st.records ∨
      ∃ x, (signIn cfg st email pw salt now).2.records
        = st.records ++ [x] := by
  unfold signIn
  split
  · exact Or.inl rfl
  · split
    · split
      · exact Or.inr ⟨_, rfl⟩
      · exact Or.inl rfl
    · exact Or.inl rfl

/-- `signOut` either leaves the record collection unchanged or applies
`revokeFirstMatch`. -/
theorem signOut_records_shape (cfg : Config) (st : AuthState) (tok : Jwt)
    (now : Nat) :
    (signOut cfg st tok now).2.records = st.records ∨
      ∃ p, (signOut cfg st tok now).2.records
        = revokeFirstMatch p st.records := by
  unfold signOut
  split
  · exact Or.inl rfl
  · exact Or.inr ⟨_, rfl⟩

/-- C4 witness: on the concrete state `stA`, refreshing at time 10 and
again at time 20 succeeds both times without touching the store and
yields two different access tokens. -/
theorem c4_refresh_does_not_rotate_witness :
    stA = stA ∧ ∃ a2, refresh cfgA stA tokR 20 = (.ok a2, stA) ∧
      accA10 ≠ a2 := by
  refine c4_refresh_does_not_rotate cfgA stA tokR 10 20 accA10 stA rfl
    (by omega) (by decide) ?_
  intro r hr
  have h3 : (stA.records.filter (fun x => x.userId == tokR.sub)).find?
      (fun x => bcryptCompare tokR x.token) = some recA := rfl
  rw [h3] at hr
  injection hr with hr
  rw [← hr]
  decide

/-- C5 counterexample: after `signOutAll` the claim expects `signOut`
with one of the principal's earlier refresh tokens to fail with
`InvalidToken`; in fact `signOut` only fails when the JWT
signature/expiry check fails, so with the revoked-but-well-signed `tokR`
it still returns the success acknowledgment. -/
theorem c5_counterexample_signout_still_acknowledges :
    (signOutAll stA "u1").records = [{ recA with isRevoked := true }] ∧
    (refresh cfgA (signOutAll stA "u1") tokR 100).1 =
      .error .invalidToken ∧
    (signOut cfgA (signOutAll stA "u1") tokR 100).1 =
      .ok "Signed out successfully" := by
  refine ⟨rfl, rfl, rfl⟩

/-- C5 (amended): after `signOutAll(P)` every record of `P` is revoked,
so every refresh token issued to P beforehand fails `Refresh` with
`InvalidToken`; `SignOut` with such a token, however, still returns its
success acknowledgment (it fails only on signature/expiry).  Records of
every other principal are left bit-for-bit unchanged at their positions,
the user collection is untouched, and the operation always succeeds. -/
theorem c5_revoke_all_blocks_refresh_but_not_signout
    (st : AuthState) (P : String) :
    (∀ r ∈ (signOutAll st P).records, r.userId = P → r.isRevoked = true) ∧
    (signOutAll st P).users = st.users ∧
    (signOutAll st P).records.length = st.records.length ∧
    (∀ (i : Nat) (r : RefreshRecord), st.records[i]? = some r →
        r.userId ≠ P → (signOutAll st P).records[i]? = some r) ∧
    (∀ cfg tok now, tok.sub = P →
        (refresh cfg (signOutAll st P) tok now).1 = .error .invalidToken) ∧
    (∀ cfg tok now, tok.secret = cfg.refreshSecret → now < tok.exp →
        (signOut cfg (signOutAll st P) tok now).1 =
          .ok "Signed out successfully") := by
  refine ⟨signOutAll_revokes st P, rfl, by simp [signOutAll],
    signOutAll_other_preserved st P, ?_, ?_⟩
  · intro cfg tok now hsub
    rcases refresh_result_cases cfg (signOutAll st P) tok now with h | ⟨a, h⟩
    · exact h
    · exfalso
      have hpair : refresh cfg (signOutAll st P) tok now
          = (.ok a, signOutAll st P) := by
        have h2 := refresh_preserves_state cfg (signOutAll st P) tok now
        exact Prod.ext h h2
      obtain ⟨-, -, -, r, u, m, hf, -, -, -⟩ :=
        refresh_ok_inv _ _ _ _ _ _ hpair
      have hf' := (fvp_some_iff _ _ _ _ _).mp hf
      have hmem := List.mem_of_find?_eq_some hf'.1
      rw [List.mem_filter] at hmem
      have hid : r.userId = P := by
        have := hmem.2
        rw [beq_iff_eq] at this
        rw [this, hsub]
      have := signOutAll_revokes st P r hmem.1 hid
      rw [hf'.2.1] at this
      exact Bool.false_ne_true this
  · intro cfg tok now hsec hex
    exact signOut_ack cfg (signOutAll st P) tok now hsec hex

/-- C5 witness: concrete instantiation — on `stA`, after `signOutAll`
for `u1`, `refresh` with `tokR` fails `InvalidToken` while `signOut`
with the same token still acknowledges. -/
theorem c5_revoke_all_blocks_refresh_but_not_signout_witness :
    (refresh cfgA (signOutAll stA "u1") tokR 50).1 =
      .error .invalidToken ∧
    (signOut cfgA (signOutAll stA "u1") tokR 50).1 =
      .ok "Signed out successfully" :=
  ⟨(c5_revoke_all_blocks_refresh_but_not_signout stA "u1").2.2.2.2.1
      cfgA tokR 50 rfl,
    (c5_revoke_all_blocks_refresh_but_not_signout stA "u1").2.2.2.2.2
      cfgA tokR 50 rfl (by decide)⟩

/-- C6: `isRevoked` is monotonic across the four lifecycle operations —
`signIn` and `refresh` never change an existing record's flag (`refresh`
never writes at all), `signOut` and `signOutAll` either keep a record or
set the flag from false to true, and no operation ever resets it to
false; moreover a revoked record is never returned by the refresh-flow
lookup, even before its `expiresAt`. -/
theorem c6_revocation_monotonic_and_terminal :
    (∀ (cfg : Config) (st : AuthState) (email pw : String)
        (salt now i : Nat) (r r' : RefreshRecord),
        st.records[i]? = some r →
        (signIn cfg st email pw salt now).2.records[i]? = some r' →
        r.isRevoked = true → r'.isRevoked = true) ∧
    (∀ (cfg : Config) (st : AuthState) (tok : Jwt) (now : Nat),
        (refresh cfg st tok now).2 = st) ∧
    (∀ (cfg : Config) (st : AuthState) (tok : Jwt) (now i : Nat)
        (r r' : RefreshRecord),
        st.records[i]? = some r →
        (signOut cfg st tok now).2.records[i]? = some r' →
        r.isRevoked = true → r'.isRevoked = true) ∧
    (∀ (st : AuthState) (P : String) (i : Nat) (r r' : RefreshRecord),
        st.records[i]? = some r →
        (signOutAll st P).records[i]? = some r' →
        r.isRevoked = true → r'.isRevoked = true) ∧
    (∀ records sub tok now r, r.isRevoked = true →
        findValidByPlaintext records sub tok now ≠ some r) := by
  refine ⟨?_, refresh_preserves_state, ?_, ?_, fvp_never_revoked⟩
  · intro cfg st email pw salt now i r r' h h' hrev
    rcases signIn_records_shape cfg st email pw salt now with hs | ⟨x, hs⟩
    · rw [hs, h] at h'
      injection h' with h'
      rw [← h']
      exact hrev
    · rw [hs] at h'
      have hi : i < st.records.length := by
        by_contra hge
        rw [List.getElem?_eq_none (by omega)] at h
        exact Option.noConfusion h
      rw [List.getElem?_append_left hi, h] at h'
      injection h' with h'
      rw [← h']
      exact hrev
  · intro cfg st tok now i r r' h h' hrev
    rcases signOut_records_shape cfg st tok now with hs | ⟨p, hs⟩
    · rw [hs, h] at h'
      injection h' with h'
      rw [← h']
      exact hrev
    · rw [hs] at h'
      obtain ⟨r0, h0, hcase⟩ := revokeFirstMatch_get p st.records i r' h'
      rw [h] at h0
      injection h0 with h0
      rcases hcase with hc | hc
      · rw [hc, ← h0]
        exact hrev
      · rw [hc]
  · intro st P i r r' h h' hrev
    unfold signOutAll at h'
    simp only [List.getElem?_map, h, Option.map_some'] at h'
    injection h' with h'
    rw [← h']
    split
    · rfl
    · exact hrev

/-- A state whose only record (`recM1`) is already revoked. -/
def stRev : AuthState := { users := [userA], records := [recM1] }

/-- `recM1` after `signOutAll` has passed over it. -/
def recM1R : RefreshRecord := { recM1 with isRevoked := true }

/-- C6 witness: concrete instantiation — signing out cannot un-revoke:
applied to a state whose only record is already revoked, the record is
still revoked afterwards, and the lookup never returns it. -/
theorem c6_revocation_monotonic_and_terminal_witness :
    recM1R.isRevoked = true ∧
    findValidByPlaintext [recM1] "u1" tokR 100 ≠ some recM1 := by
  constructor
  · exact c6_revocation_monotonic_and_terminal.2.2.2.1 stRev "u1" 0
      recM1 recM1R rfl rfl rfl
  · exact c6_revocation_monotonic_and_terminal.2.2.2.2 [recM1] "u1" tokR 100
      recM1 rfl

/-- C7: with distinct configured secrets, an access assertion issued for
a principal verifies under the access secret (before its expiry) and
yields that principal's identity in `sub`, fails under the refresh secret
with `InvalidSignature`, and symmetrically a refresh assertion issued for
the same principal fails verification under the access secret with
`InvalidSignature` at any time. -/
theorem c7_access_refresh_secret_binding
    (cfg : Config) (u : User) (now tv : Nat) (a : Jwt)
    (hdist : cfg.jwtSecret ≠ cfg.refreshSecret)
    (hgen : generateAccessToken cfg u now = some a)
    (hexp : tv < a.exp) :
    jwtVerify a cfg.jwtSecret tv = .ok a ∧ a.sub = u.id ∧
    jwtVerify a cfg.refreshSecret tv = .error .invalidSignature ∧
    (∀ (salt : Nat) (rt : Jwt) (rec : RefreshRecord) (t2 : Nat),
        generateRefreshToken cfg u salt now = some (rt, rec) →
        jwtVerify rt cfg.jwtSecret t2 = .error .invalidSignature) := by
  have key : a.secret = cfg.jwtSecret ∧ a.sub = u.id := by
    simp only [generateAccessToken] at hgen
    split at hgen
    · injection hgen with hg
      rw [← hg]
      exact ⟨rfl, rfl⟩
    · exact absurd hgen (by simp)
  refine ⟨(jwtVerify_ok_iff _ _ _ _).mpr ⟨rfl, key.1, hexp⟩, key.2, ?_, ?_⟩
  · unfold jwtVerify
    rw [if_pos (show a.secret ≠ cfg.refreshSecret by
      rw [key.1]; exact hdist)]
  · intro salt rt rec t2 hr
    have hrt : rt.secret = cfg.refreshSecret := by
      simp only [generateRefreshToken] at hr
      split at hr
      · injection hr with hr'
        injection hr' with ha hb
        rw [← ha]
      · exact absurd hr (by simp)
    unfold jwtVerify
    rw [if_pos (show rt.secret ≠ cfg.jwtSecret by
      rw [hrt]; exact fun h => hdist h.symm)]

/-- The access token `generateAccessToken cfgA userA 0` issues. -/
def accA0 : Jwt :=
  { sub := "u1", email := "a@x.com", username := some "alice",
    iat := 0, exp := 900000, secret := "acc-secret" }

/-- C7 witness: on the concrete configuration, the issued access token
verifies under the access secret and not the refresh secret, and the
issued refresh token does not verify under the access secret. -/
theorem c7_access_refresh_secret_binding_witness :
    jwtVerify accA0 cfgA.jwtSecret 5 = .ok accA0 ∧
    accA0.sub = userA.id ∧
    jwtVerify accA0 cfgA.refreshSecret 5 = .error .invalidSignature ∧
    jwtVerify tokR cfgA.jwtSecret 5 = .error .invalidSignature := by
  have h := c7_access_refresh_secret_binding cfgA userA 0 5 accA0
    (by decide) rfl (by decide)
  exact ⟨h.1, h.2.1, h.2.2.1, h.2.2.2 5 tokR recA 5 rfl⟩

/-- C8 counterexample: a connection-open whose handshake carries no
bearer token is closed *without* any error event being emitted — the
code logs and disconnects straight away in the missing-token branch, so
the claimed "single error event" does not happen there (no registry
entry is added either). -/
theorem c8_counterexample_no_token_emits_nothing :
    handleConnection cfgA Registry.empty hsNone "s1" 0 =
      { registry := Registry.empty, events := [], disconnected := true,
        dataUserId := none } ∧
    GwEvent.errorEvent ∉
      (handleConnection cfgA Registry.empty hsNone "s1" 0).events := by
  refine ⟨rfl, by decide⟩

/-- C8 (amended): a failed realtime connection-open never leaves the
connection half-open and never touches the registry; with no bearer
token the connection is closed with *no* event emitted, and with a token
that fails verification a single error event is emitted before the
close. -/
theorem c8_failed_handshake_closes_without_registering
    (cfg : Config) (reg : Registry) (hs : Handshake) (sid : String)
    (now : Nat) :
    (hs.authToken = none → hs.headerToken = none →
        handleConnection cfg reg hs sid now =
          { registry := reg, events := [], disconnected := true,
            dataUserId := none }) ∧
    (∀ (tok : Jwt) (e : VerifyErr),
        (hs.authToken <|> hs.headerToken) = some tok →
        jwtVerify tok cfg.jwtSecret now = .error e →
        handleConnection cfg reg hs sid now =
          { registry := reg, events := [.errorEvent], disconnected := true,
            dataUserId := none }) := by
  constructor
  · intro h1 h2
    have h3 : (hs.authToken <|> hs.headerToken) = none := by
      rw [h1, h2]
      rfl
    simp only [handleConnection, h3]
  · intro tok e hsome hv
    simp only [handleConnection, hsome, hv]

/-- C8 witness: concrete runs of both failure branches — the
token-free handshake closes silently, the forged-token handshake closes
after one error event; neither registers a connection. -/
theorem c8_failed_handshake_closes_without_registering_witness :
    handleConnection cfgA Registry.empty hsNone "s1" 0 =
      { registry := Registry.empty, events := [], disconnected := true,
        dataUserId := none } ∧
    handleConnection cfgA Registry.empty hsForged "s2" 0 =
      { registry := Registry.empty, events := [.errorEvent],
        disconnected := true, dataUserId := none } :=
  ⟨(c8_failed_handshake_closes_without_registering cfgA Registry.empty
      hsNone "s1" 0).1 rfl rfl,
    (c8_failed_handshake_closes_without_registering cfgA Registry.empty
      hsForged "s2" 0).2 tokForged .invalidSignature rfl rfl⟩

/-- C9 counterexample: with the refresh lifetime configured as "12h",
the signed token's embedded expiry is 12 hours after issuance but the
stored record's `expiresAt` is 12 *days* after issuance — the code
computes `parseInt(expiresIn.replace('d', ''))` and always interprets
the number as days, so the stored absolute timestamp does not agree with
the token's embedded expiry for a non-day-denominated offset. -/
theorem c9_counterexample_hour_offset_misconverted :
    generateRefreshToken cfgH userA 7 0 = some (tokH, recH) ∧
    recH.expiresAt ≠ tokH.exp := by
  refine ⟨rfl, by decide⟩

/-- C9 (amended): for a *day-denominated* refresh-lifetime offset (the
default "7d" included), issuance converts the offset exactly once into
the absolute `expiresAt = now + k` days, which agrees with the expiry
embedded in the signed token; for other units the stored `expiresAt`
misreads the number as days and diverges from the embedded expiry. -/
theorem c9_day_offsets_convert_once_and_agree
    (cfg : Config) (u : User) (salt now k m : Nat)
    (hms : msParse (cfg.refreshExpiration.getD "7d").toList = some m)
    (hdays : parseIntLeading
        (jsReplaceFirst 'd' (cfg.refreshExpiration.getD "7d").toList)
        = some k)
    (hagree : m = k * dayMs) :
    generateRefreshToken cfg u salt now =
      some (⟨u.id, u.email, none, now, now + k * dayMs, cfg.refreshSecret⟩,
        ⟨⟨salt, ⟨u.id, u.email, none, now, now + k * dayMs,
            cfg.refreshSecret⟩⟩,
          u.id, now + k * dayMs, false, now⟩) := by
  subst hagree
  simp only [generateRefreshToken, hms, hdays]

/-- C9 witness: under the default configuration ("7d") the stored
`expiresAt` is `now + 7` days and equals the token's embedded expiry. -/
theorem c9_day_offsets_convert_once_and_agree_witness :
    generateRefreshToken cfgA userA 5 0 =
      some (⟨userA.id, userA.email, none, 0, 0 + 7 * dayMs,
          cfgA.refreshSecret⟩,
        ⟨⟨5, ⟨userA.id, userA.email, none, 0, 0 + 7 * dayMs,
            cfgA.refreshSecret⟩⟩,
          userA.id, 0 + 7 * dayMs, false, 0⟩) :=
  c9_day_offsets_convert_once_and_agree cfgA userA 5 0 7 604800000
    rfl rfl rfl

/-- C10: when the refresh token verifies and a valid matching record
exists but the subject principal no longer exists or is deactivated
(`UsersService.findOne` throws `NotFoundException`), `refresh` fails
with the collapsed `InvalidToken` outcome — not `NotFound` — and the
state, in particular the matching record, is left unchanged. -/
theorem c10_missing_user_collapses_to_invalid_token
    (cfg : Config) (st : AuthState) (tok : Jwt) (now : Nat)
    (r : RefreshRecord)
    (hsec : tok.secret = cfg.refreshSecret) (hex : now < tok.exp)
    (hf : findValidByPlaintext st.records tok.sub tok now = some r)
    (hu : findOne st.users tok.sub = .error .notFound) :
    refresh cfg st tok now = (.error .invalidToken, st) := by
  have hv : jwtVerify tok cfg.refreshSecret now = .ok tok :=
    (jwtVerify_ok_iff _ _ _ _).mpr ⟨rfl, hsec, hex⟩
  simp only [refresh, hv, hf, hu]

/-- C10 witness: on the state whose only user is soft-deleted while the
matching record is valid, `refresh` returns `InvalidToken` and leaves
the state unchanged. -/
theorem c10_missing_user_collapses_to_invalid_token_witness :
    refresh cfgA stInactive tokR 100 = (.error .invalidToken, stInactive) :=
  c10_missing_user_collapses_to_invalid_token cfgA stInactive tokR 100
    recA rfl (by decide) rfl rfl

end Cegid
